import Mathlib

/-!
Shallow embedding of the `s3-write-only-fs` core (files `src/upload.rs`,
`src/id_generator.rs`, `src/s3_write_only_filesystem.rs`).

Modelling conventions:
* Bytes are `Nat`, byte buffers (`Vec<u8>`) are `List Nat`.
* The S3 SDK client is modelled as a deterministic environment `S3Env` of
  response functions: an `Option`/`Bool` result collapses both transport
  failures and missing response fields into a single failure, exactly as the
  Rust code treats both as `Err` via `?` / `ok_or_else`.
* Every operation returns the ordered list of S3 RPCs it issued (its trace)
  together with an `Except String` result mirroring `anyhow::Result`.
* `AtomicU64::fetch_add` wraps at 2^64 and `as i64` reinterprets the bit
  pattern; both are modelled explicitly (`U64_MOD`, `u64AsI64`).
* `SystemTime` timestamps and the `size/blocks/...` attribute fields that no
  claim mentions are elided from `FileAttr`; the fields the dispatcher logic
  branches on (`ino`, `perm`, `kind`) are kept.
-/

/-- `const MULTIPART_MINIMUM_PART_SIZE: usize = 5 * 1024 * 1024;` -/
def MULTIPART_MINIMUM_PART_SIZE : Nat := 5 * 1024 * 1024

/-- Modulus of the 64-bit unsigned counter backing `IdGenerator`. -/
def U64_MOD : Nat := 2 ^ 64

/-- Reinterpretation of a `u64` value as an `i64` (`as i64` in Rust). -/
def u64AsI64 (n : Nat) : Int :=
  if n < 2 ^ 63 then (n : Int) else (n : Int) - (U64_MOD : Int)

/-- `IdGenerator(AtomicU64)` from `src/id_generator.rs`. -/
structure IdGenerator where
  counter : Nat
deriving Repr, DecidableEq

/-- `IdGenerator::new(start)`. -/
def IdGenerator.new (start : Nat) : IdGenerator :=
  ⟨start % U64_MOD⟩

/-- `IdGenerator::next`: `fetch_add(1)` returns the previous value and stores
the wrapped successor. -/
def IdGenerator.next (g : IdGenerator) : Nat × IdGenerator :=
  (g.counter, ⟨(g.counter + 1) % U64_MOD⟩)

/-- `rusoto_s3::CompletedPart` (the two fields the code sets). -/
structure CompletedPart where
  e_tag : Option String
  part_number : Option Int
deriving Repr, DecidableEq

/-- One outbound S3 RPC, recorded with the arguments the code passes. -/
inductive S3Call where
  | createMultipartUpload (bucket key : String)
  | uploadPart (bucket key upload_id : String) (part_number : Int) (body : List Nat)
  | putObject (bucket key : String) (body : List Nat)
  | completeMultipartUpload (bucket key upload_id : String) (parts : List CompletedPart)
  | abortMultipartUpload (bucket key upload_id : String)
deriving Repr, DecidableEq

/-- The S3 client as a deterministic response environment.  `none` / `false`
model a failed RPC (transport error or missing response field). -/
structure S3Env where
  create_multipart_upload_resp : String → String → Option String
  upload_part_resp : String → String → String → Int → List Nat → Option String
  put_object_ok : String → String → List Nat → Bool
  complete_multipart_upload_ok : String → String → String → List CompletedPart → Bool
  abort_multipart_upload_ok : String → String → String → Bool

/-- `enum Upload` from `src/upload.rs`. -/
inductive Upload where
  | Empty
  | Regular (bucket key : String) (current_buffer : List Nat)
  | Multipart (bucket key multipart_upload_id : String)
      (multipart_part_number_generator : IdGenerator)
      (current_buffer : List Nat)
      (parts : List CompletedPart)
deriving Repr, DecidableEq

/-- `impl Default for Upload` returns `Self::Empty`. -/
def Upload.default : Upload := Upload.Empty

/-- `Upload::new`. -/
def Upload.new (bucket key : String) : Upload :=
  Upload.Regular bucket key []

/-- `Upload::create_multipart_upload`: issues the RPC and fails when no
`upload_id` comes back. -/
def Upload.create_multipart_upload (env : S3Env) (bucket key : String) :
    List S3Call × Except String String :=
  ([S3Call.createMultipartUpload bucket key],
   match env.create_multipart_upload_resp bucket key with
   | some upload_id => Except.ok upload_id
   | none => Except.error "upload id was unset after multipart upload was created")

/-- `Upload::upload_part`: issues the RPC and fails when no ETag comes back;
on success builds the `CompletedPart`. -/
def Upload.upload_part (env : S3Env) (bucket key upload_id : String)
    (part_number : Int) (body : List Nat) :
    List S3Call × Except String CompletedPart :=
  ([S3Call.uploadPart bucket key upload_id part_number body],
   match env.upload_part_resp bucket key upload_id part_number body with
   | some e_tag => Except.ok ⟨some e_tag, some part_number⟩
   | none => Except.error "uploaded multipart did not return e-tag")

/-- `Upload::write` (src/upload.rs lines 115–189), by-value state transition. -/
def Upload.write (env : S3Env) (u : Upload) (data : List Nat) :
    List S3Call × Except String Upload :=
  match u with
  | Upload.Regular bucket key current_buffer =>
    let current_buffer := current_buffer ++ data
    if MULTIPART_MINIMUM_PART_SIZE ≤ current_buffer.length then
      let gen := IdGenerator.new 1
      let c1 := Upload.create_multipart_upload env bucket key
      match c1.2 with
      | Except.error e => (c1.1, Except.error e)
      | Except.ok multipart_upload_id =>
        let n := gen.next
        let c2 := Upload.upload_part env bucket key multipart_upload_id
          (u64AsI64 n.1) current_buffer
        match c2.2 with
        | Except.error e => (c1.1 ++ c2.1, Except.error e)
        | Except.ok completed_part =>
          (c1.1 ++ c2.1,
           Except.ok (Upload.Multipart bucket key multipart_upload_id n.2 []
             [completed_part]))
    else
      ([], Except.ok (Upload.Regular bucket key current_buffer))
  | Upload.Multipart bucket key multipart_upload_id gen current_buffer parts =>
    let current_buffer := current_buffer ++ data
    if MULTIPART_MINIMUM_PART_SIZE ≤ current_buffer.length then
      let n := gen.next
      let c := Upload.upload_part env bucket key multipart_upload_id
        (u64AsI64 n.1) current_buffer
      match c.2 with
      | Except.error e => (c.1, Except.error e)
      | Except.ok completed_part =>
        (c.1,
         Except.ok (Upload.Multipart bucket key multipart_upload_id n.2 []
           (parts ++ [completed_part])))
    else
      ([], Except.ok (Upload.Multipart bucket key multipart_upload_id gen
        current_buffer parts))
  | any => ([], Except.ok any)

/-- `Upload::finish` (src/upload.rs lines 191–241). -/
def Upload.finish (env : S3Env) (u : Upload) : List S3Call × Except String Unit :=
  match u with
  | Upload.Empty => ([], Except.error "Upload is in invalid state, cannot finish")
  | Upload.Regular bucket key current_buffer =>
    ([S3Call.putObject bucket key current_buffer],
     if env.put_object_ok bucket key current_buffer then Except.ok ()
     else Except.error "put_object failed")
  | Upload.Multipart bucket key multipart_upload_id gen current_buffer parts =>
    let tail : List S3Call × Except String (List CompletedPart) :=
      if current_buffer.isEmpty then ([], Except.ok parts)
      else
        let n := gen.next
        let c := Upload.upload_part env bucket key multipart_upload_id
          (u64AsI64 n.1) current_buffer
        match c.2 with
        | Except.error e => (c.1, Except.error e)
        | Except.ok completed_part => (c.1, Except.ok (parts ++ [completed_part]))
    match tail.2 with
    | Except.error e => (tail.1, Except.error e)
    | Except.ok parts =>
      (tail.1 ++ [S3Call.completeMultipartUpload bucket key multipart_upload_id parts],
       if env.complete_multipart_upload_ok bucket key multipart_upload_id parts then
         Except.ok ()
       else Except.error "complete_multipart_upload failed")

/-- `Upload::destroy` (src/upload.rs lines 243–263). -/
def Upload.destroy (env : S3Env) (u : Upload) : List S3Call × Except String Unit :=
  match u with
  | Upload.Empty => ([], Except.ok ())
  | Upload.Regular _ _ _ => ([], Except.ok ())
  | Upload.Multipart bucket key multipart_upload_id _ _ _ =>
    ([S3Call.abortMultipartUpload bucket key multipart_upload_id],
     if env.abort_multipart_upload_ok bucket key multipart_upload_id then Except.ok ()
     else Except.error "abort_multipart_upload failed")

/-- Feed a sequence of writes to an `Upload`, accumulating the RPC trace and
stopping at the first error, as the kernel dispatcher would. -/
def Upload.runWrites (env : S3Env) (u : Upload) :
    List (List Nat) → List S3Call × Except String Upload
  | [] => ([], Except.ok u)
  | w :: ws =>
    let c := Upload.write env u w
    match c.2 with
    | Except.error e => (c.1, Except.error e)
    | Except.ok u2 =>
      let c2 := Upload.runWrites env u2 ws
      (c.1 ++ c2.1, c2.2)

/-- Bodies of the `upload_part` RPCs of a trace, in order. -/
def uploadPartBodies (t : List S3Call) : List (List Nat) :=
  t.filterMap fun c =>
    match c with
    | S3Call.uploadPart _ _ _ _ body => some body
    | _ => none

/-- Bodies of the `put_object` RPCs of a trace, in order. -/
def putObjectBodies (t : List S3Call) : List (List Nat) :=
  t.filterMap fun c =>
    match c with
    | S3Call.putObject _ _ body => some body
    | _ => none

/-- Part numbers passed to `upload_part`, in call order. -/
def uploadPartNumbers (t : List S3Call) : List Int :=
  t.filterMap fun c =>
    match c with
    | S3Call.uploadPart _ _ _ part_number _ => some part_number
    | _ => none

/-- The parts lists passed to `complete_multipart_upload`, in call order. -/
def completedPartsLists (t : List S3Call) : List (List CompletedPart) :=
  t.filterMap fun c =>
    match c with
    | S3Call.completeMultipartUpload _ _ _ parts => some parts
    | _ => none

/-! ## The filesystem dispatcher (`src/s3_write_only_filesystem.rs`) -/

/-- `struct BucketAndPrefix`. -/
structure BucketAndPrefix where
  s3_bucket_name : String
  prefix_path : Option String
deriving Repr, DecidableEq

/-- `str::trim_start_matches('/')` on a character list. -/
def trimStartSlashes : List Char → List Char
  | [] => []
  | c :: rest => if c = '/' then trimStartSlashes rest else c :: rest

/-- `str::trim_end_matches('/')` on a character list. -/
def trimEndSlashes (l : List Char) : List Char :=
  (trimStartSlashes l.reverse).reverse

/-- `str::find(':')`: split a character list at the first `':'`, returning
the pieces before and after it, or `none` when there is no `':'`. -/
def splitAtFirstColon : List Char → Option (List Char × List Char)
  | [] => none
  | c :: rest =>
    if c = ':' then some ([], rest)
    else
      match splitAtFirstColon rest with
      | some p => some (c :: p.1, p.2)
      | none => none

/-- `impl FromStr for BucketAndPrefix` (src/s3_write_only_filesystem.rs lines
120–144).  The Rust implementation is infallible (always returns `Ok`), so the
model returns the value directly. -/
def BucketAndPrefix.from_str (device : String) : BucketAndPrefix :=
  match splitAtFirstColon device.toList with
  | some p =>
    let trimmed := trimEndSlashes (trimStartSlashes p.2)
    { s3_bucket_name := String.mk p.1,
      prefix_path := if trimmed.isEmpty then none else some (String.mk trimmed) }
  | none => { s3_bucket_name := device, prefix_path := none }

/-- `fuse::FileType` (the two variants this code uses). -/
inductive FileType where
  | RegularFile
  | Directory
deriving Repr, DecidableEq

/-- `fuse::FileAttr`, restricted to the fields the embedded operations
branch on or set distinctively (timestamps and sizes elided). -/
structure FileAttr where
  ino : Nat
  perm : Nat
  kind : FileType
deriving Repr, DecidableEq

def GENERATION : Nat := 0
def ROOT_DIRECTORY_INODE : Nat := 1
def HELP_EN_INODE : Nat := 2
def HELP_EN_NAME : String := "_Uploaded files will not be visible.txt"
def HELP_DE_INODE : Nat := 3
def HELP_DE_NAME : String := "_Hochgeladene Dateien werden nicht sichtbar sein.txt"

def HELP_EN_FILEATTR : FileAttr :=
  { ino := HELP_EN_INODE, perm := 0o644, kind := FileType.RegularFile }

def HELP_DE_FILEATTR : FileAttr :=
  { ino := HELP_DE_INODE, perm := 0o644, kind := FileType.RegularFile }

def STATIC_INODES : List Nat := [ROOT_DIRECTORY_INODE, HELP_EN_INODE, HELP_DE_INODE]

/-- POSIX errno values used by the dispatcher (`libc`). -/
def ENOENT : Nat := 2
def EIO_ERRNO : Nat := 5
def EACCES : Nat := 13

/-- `struct Node`. -/
structure Node where
  key : String
  file_attr : FileAttr
  upload : Upload
deriving Repr, DecidableEq

/-- `Node::new`. -/
def Node.new (id : Nat) (bucket key : String) : Node :=
  { key := key,
    file_attr := { ino := id, perm := 0o220, kind := FileType.RegularFile },
    upload := Upload.new bucket key }

/-- `Node::write`: `mem::take` moves the upload out (leaving `Empty`), runs
`Upload::write`, and restores the new state only on success — on error the
`?` returns early and the node keeps the `Empty` placeholder. -/
def Node.write (env : S3Env) (n : Node) (data : List Nat) :
    Node × List S3Call × Except String Unit :=
  let upload := n.upload
  let taken : Node := { n with upload := Upload.default }
  let c := Upload.write env upload data
  match c.2 with
  | Except.error e => (taken, c.1, Except.error e)
  | Except.ok upload => ({ taken with upload := upload }, c.1, Except.ok ())

/-- `Node::finish`: `mem::take` then `Upload::finish`. -/
def Node.finish (env : S3Env) (n : Node) :
    Node × List S3Call × Except String Unit :=
  let upload := n.upload
  let taken : Node := { n with upload := Upload.default }
  let c := Upload.finish env upload
  (taken, c.1, c.2)

/-- `Node::destroy`: `mem::take` then `Upload::destroy`. -/
def Node.destroy (env : S3Env) (n : Node) :
    Node × List S3Call × Except String Unit :=
  let upload := n.upload
  let taken : Node := { n with upload := Upload.default }
  let c := Upload.destroy env upload
  (taken, c.1, c.2)

/-- `HashMap::get` on the association-list model of the node table. -/
def mapLookup : List (Nat × Node) → Nat → Option Node
  | [], _ => none
  | kv :: rest, i => if kv.1 = i then some kv.2 else mapLookup rest i

/-- `HashMap::remove`. -/
def mapRemove : List (Nat × Node) → Nat → List (Nat × Node)
  | [], _ => []
  | kv :: rest, i => if kv.1 = i then mapRemove rest i else kv :: mapRemove rest i

/-- `HashMap::insert` (replacing any existing binding for the key). -/
def mapInsert (m : List (Nat × Node)) (k : Nat) (v : Node) : List (Nat × Node) :=
  (k, v) :: mapRemove m k

/-- The reply sent back to the kernel by one dispatcher operation. -/
inductive FsReply where
  | error (errno : Nat)
  | entry (attr : FileAttr)
  | created (attr : FileAttr) (generation : Nat) (fh : Nat)
  | written (size : Nat)
  | ok
deriving Repr, DecidableEq

/-- Observable events of one dispatcher operation: the lifetime of the
node-table `MutexGuard` (acquired at `self.nodes.lock()`, released where the
guard is dropped at the end of its scope) and each outbound S3 RPC. -/
inductive FsEvent where
  | lockAcquire
  | lockRelease
  | rpc (call : S3Call)
deriving Repr, DecidableEq

/-- `struct S3WriteOnlyFilesystem` (runtime/client handles elided; the
S3 client lives in the `S3Env` parameter of each operation). -/
structure S3WriteOnlyFilesystem where
  id_generator : IdGenerator
  nodes : List (Nat × Node)
  s3_bucket : String
  s3_prefix_path : Option String
deriving Repr, DecidableEq

/-- `S3WriteOnlyFilesystem::new`. -/
def S3WriteOnlyFilesystem.new (bp : BucketAndPrefix) :
    S3WriteOnlyFilesystem :=
  { id_generator := IdGenerator.new 10,
    nodes := [],
    s3_bucket := bp.s3_bucket_name,
    s3_prefix_path := bp.prefix_path }

/-- `Filesystem::lookup` (lines 344–358): only the two help-file names under
the root directory resolve; the node table is never consulted. -/
def S3WriteOnlyFilesystem.lookup (_fs : S3WriteOnlyFilesystem)
    (parent : Nat) (name : String) : FsReply :=
  if parent ≠ ROOT_DIRECTORY_INODE then FsReply.error ENOENT
  else if name = HELP_EN_NAME then FsReply.entry HELP_EN_FILEATTR
  else if name = HELP_DE_NAME then FsReply.entry HELP_DE_FILEATTR
  else FsReply.error ENOENT

/-- The object key composed by `Filesystem::create`:
`[s3_prefix, &*filename].join("/")` when a prefix is configured, else the
bare filename. -/
def composeKey (prefix_path : Option String) (name : String) : String :=
  match prefix_path with
  | some p => p ++ "/" ++ name
  | none => name

/-- `Filesystem::create` (lines 644–684): allocate an inode, compose the key
from the optional prefix, insert a fresh `Regular` node.  (The poisoned-lock
`EACCES` branch is unreachable in the sequential model.) -/
def S3WriteOnlyFilesystem.create (fs : S3WriteOnlyFilesystem)
    (parent : Nat) (name : String) : S3WriteOnlyFilesystem × FsReply :=
  if parent ≠ ROOT_DIRECTORY_INODE then (fs, FsReply.error ENOENT)
  else
    let n := fs.id_generator.next
    let filename := composeKey fs.s3_prefix_path name
    let node := Node.new n.1 fs.s3_bucket filename
    ({ fs with id_generator := n.2, nodes := mapInsert fs.nodes n.1 node },
     FsReply.created node.file_attr GENERATION n.1)

/-- `Filesystem::write` (lines 507–548): the node-table guard is held for the
whole operation; `Node::write` (and any RPC it issues) runs under it. -/
def S3WriteOnlyFilesystem.write (env : S3Env) (fs : S3WriteOnlyFilesystem)
    (ino : Nat) (data : List Nat) :
    S3WriteOnlyFilesystem × List FsEvent × FsReply :=
  match mapLookup fs.nodes ino with
  | some node =>
    let r := Node.write env node data
    let fs2 := { fs with nodes := mapInsert fs.nodes ino r.1 }
    match r.2.2 with
    | Except.ok _ =>
      (fs2, FsEvent.lockAcquire :: (r.2.1.map FsEvent.rpc ++ [FsEvent.lockRelease]),
       FsReply.written data.length)
    | Except.error _ =>
      (fs2, FsEvent.lockAcquire :: (r.2.1.map FsEvent.rpc ++ [FsEvent.lockRelease]),
       FsReply.error EIO_ERRNO)
  | none => (fs, [FsEvent.lockAcquire, FsEvent.lockRelease], FsReply.error ENOENT)

/-- `Filesystem::release` (lines 562–608): static inodes short-circuit before
the lock; otherwise the node is removed and finished while the guard is held. -/
def S3WriteOnlyFilesystem.release (env : S3Env) (fs : S3WriteOnlyFilesystem)
    (ino : Nat) : S3WriteOnlyFilesystem × List FsEvent × FsReply :=
  if ino ∈ STATIC_INODES then (fs, [], FsReply.ok)
  else
    match mapLookup fs.nodes ino with
    | some node =>
      let fs2 := { fs with nodes := mapRemove fs.nodes ino }
      let r := Node.finish env node
      match r.2.2 with
      | Except.ok _ =>
        (fs2, FsEvent.lockAcquire :: (r.2.1.map FsEvent.rpc ++ [FsEvent.lockRelease]),
         FsReply.ok)
      | Except.error _ =>
        (fs2, FsEvent.lockAcquire :: (r.2.1.map FsEvent.rpc ++ [FsEvent.lockRelease]),
         FsReply.error EIO_ERRNO)
    | none => (fs, [FsEvent.lockAcquire, FsEvent.lockRelease], FsReply.error ENOENT)

/-- `impl Drop for S3WriteOnlyFilesystem` (lines 325–341): destroy every live
node, logging and swallowing errors; returns the combined RPC trace. -/
def S3WriteOnlyFilesystem.drop (env : S3Env) (fs : S3WriteOnlyFilesystem) :
    List S3Call :=
  (fs.nodes.map fun kv => (Node.destroy env kv.2).2.1).flatten

/-- The S3 calls recorded in an event trace, in order. -/
def rpcCalls (evs : List FsEvent) : List S3Call :=
  evs.filterMap fun e =>
    match e with
    | FsEvent.rpc c => some c
    | _ => none

/-- `true` iff some `rpc` event of the trace happens at positive lock depth. -/
def rpcWhileLocked : Nat → List FsEvent → Bool
  | _, [] => false
  | depth, FsEvent.lockAcquire :: rest => rpcWhileLocked (depth + 1) rest
  | depth, FsEvent.lockRelease :: rest => rpcWhileLocked (depth - 1) rest
  | depth, FsEvent.rpc _ :: rest => decide (0 < depth) || rpcWhileLocked depth rest

/-- `true` iff every `rpc` event of the trace happens at positive lock depth. -/
def allRpcsLocked : Nat → List FsEvent → Bool
  | _, [] => true
  | depth, FsEvent.lockAcquire :: rest => allRpcsLocked (depth + 1) rest
  | depth, FsEvent.lockRelease :: rest => allRpcsLocked (depth - 1) rest
  | depth, FsEvent.rpc _ :: rest => decide (0 < depth) && allRpcsLocked depth rest

/-- Part numbers actually emitted by a wrapping `u64` counter that started at
1: the `i`-th `upload_part` call (0-based) carries `(1 + i) mod 2^64` cast to
`i64`. -/
def partNumberSeq (n : Nat) : List Int :=
  (List.range n).map fun i => u64AsI64 ((1 + i) % U64_MOD)

/-- The strictly increasing prefix `[1, 2, …, n]` of the positive integers. -/
def naturalSeq (n : Nat) : List Int :=
  (List.range n).map fun i => Int.ofNat (i + 1)

/-- Relation between the bytes fed to an upload so far, the RPC trace it has
issued, and its current state.  `bytes` is the concatenation of all `write`
payloads accepted so far. -/
def uploadTraceInv (bucket key : String) (bytes : List Nat) (t : List S3Call) :
    Upload → Prop
  | Upload.Empty => False
  | Upload.Regular b k buf => b = bucket ∧ k = key ∧ t = [] ∧ buf = bytes
  | Upload.Multipart b k _ gen buf parts =>
      b = bucket ∧ k = key ∧
      putObjectBodies t = [] ∧
      completedPartsLists t = [] ∧
      (uploadPartBodies t).flatten ++ buf = bytes ∧
      parts.length = (uploadPartBodies t).length ∧
      uploadPartNumbers t = partNumberSeq parts.length ∧
      parts.map CompletedPart.part_number = (partNumberSeq parts.length).map some ∧
      gen.counter = (1 + parts.length) % U64_MOD

/-! ## Concrete fixtures used by witnesses and counterexamples -/

/-- An S3 environment in which every RPC succeeds. -/
def envAllOk : S3Env :=
  { create_multipart_upload_resp := fun _ _ => some "upload-id",
    upload_part_resp := fun _ _ _ _ _ => some "etag",
    put_object_ok := fun _ _ _ => true,
    complete_multipart_upload_ok := fun _ _ _ _ => true,
    abort_multipart_upload_ok := fun _ _ _ => true }

/-- An S3 environment in which `create_multipart_upload` succeeds but
`upload_part` fails (no ETag returned). -/
def envPartFails : S3Env :=
  { create_multipart_upload_resp := fun _ _ => some "upload-id",
    upload_part_resp := fun _ _ _ _ _ => none,
    put_object_ok := fun _ _ _ => true,
    complete_multipart_upload_ok := fun _ _ _ _ => true,
    abort_multipart_upload_ok := fun _ _ _ => true }

/-- A 5 MiB payload: exactly the multipart threshold. -/
def thresholdData : List Nat := List.replicate MULTIPART_MINIMUM_PART_SIZE 0

/-- A filesystem holding one freshly created node at inode 10. -/
def fsOneNode : S3WriteOnlyFilesystem :=
  { id_generator := ⟨11⟩,
    nodes := [(10, Node.new 10 "b" "k")],
    s3_bucket := "b",
    s3_prefix_path := none }

/-! ## Trace bookkeeping lemmas -/

theorem uploadPartBodies_nil : uploadPartBodies [] = [] := rfl

theorem uploadPartBodies_append (s t : List S3Call) :
    uploadPartBodies (s ++ t) = uploadPartBodies s ++ uploadPartBodies t := by
  simp [uploadPartBodies, List.filterMap_append]

theorem uploadPartBodies_create (b k : String) (t : List S3Call) :
    uploadPartBodies (S3Call.createMultipartUpload b k :: t) = uploadPartBodies t := rfl

theorem uploadPartBodies_upload (b k uid : String) (pn : Int) (body : List Nat)
    (t : List S3Call) :
    uploadPartBodies (S3Call.uploadPart b k uid pn body :: t) =
      body :: uploadPartBodies t := rfl

theorem uploadPartBodies_put (b k : String) (body : List Nat) (t : List S3Call) :
    uploadPartBodies (S3Call.putObject b k body :: t) = uploadPartBodies t := rfl

theorem uploadPartBodies_complete (b k uid : String) (ps : List CompletedPart)
    (t : List S3Call) :
    uploadPartBodies (S3Call.completeMultipartUpload b k uid ps :: t) =
      uploadPartBodies t := rfl

theorem putObjectBodies_nil : putObjectBodies [] = [] := rfl

theorem putObjectBodies_append (s t : List S3Call) :
    putObjectBodies (s ++ t) = putObjectBodies s ++ putObjectBodies t := by
  simp [putObjectBodies, List.filterMap_append]

theorem putObjectBodies_create (b k : String) (t : List S3Call) :
    putObjectBodies (S3Call.createMultipartUpload b k :: t) = putObjectBodies t := rfl

theorem putObjectBodies_upload (b k uid : String) (pn : Int) (body : List Nat)
    (t : List S3Call) :
    putObjectBodies (S3Call.uploadPart b k uid pn body :: t) = putObjectBodies t := rfl

theorem putObjectBodies_put (b k : String) (body : List Nat) (t : List S3Call) :
    putObjectBodies (S3Call.putObject b k body :: t) = body :: putObjectBodies t := rfl

theorem putObjectBodies_complete (b k uid : String) (ps : List CompletedPart)
    (t : List S3Call) :
    putObjectBodies (S3Call.completeMultipartUpload b k uid ps :: t) =
      putObjectBodies t := rfl

theorem uploadPartNumbers_nil : uploadPartNumbers [] = [] := rfl

theorem uploadPartNumbers_append (s t : List S3Call) :
    uploadPartNumbers (s ++ t) = uploadPartNumbers s ++ uploadPartNumbers t := by
  simp [uploadPartNumbers, List.filterMap_append]

theorem uploadPartNumbers_create (b k : String) (t : List S3Call) :
    uploadPartNumbers (S3Call.createMultipartUpload b k :: t) = uploadPartNumbers t := rfl

theorem uploadPartNumbers_upload (b k uid : String) (pn : Int) (body : List Nat)
    (t : List S3Call) :
    uploadPartNumbers (S3Call.uploadPart b k uid pn body :: t) =
      pn :: uploadPartNumbers t := rfl

theorem uploadPartNumbers_put (b k : String) (body : List Nat) (t : List S3Call) :
    uploadPartNumbers (S3Call.putObject b k body :: t) = uploadPartNumbers t := rfl

theorem uploadPartNumbers_complete (b k uid : String) (ps : List CompletedPart)
    (t : List S3Call) :
    uploadPartNumbers (S3Call.completeMultipartUpload b k uid ps :: t) =
      uploadPartNumbers t := rfl

theorem completedPartsLists_nil : completedPartsLists [] = [] := rfl

theorem completedPartsLists_append (s t : List S3Call) :
    completedPartsLists (s ++ t) = completedPartsLists s ++ completedPartsLists t := by
  simp [completedPartsLists, List.filterMap_append]

theorem completedPartsLists_create (b k : String) (t : List S3Call) :
    completedPartsLists (S3Call.createMultipartUpload b k :: t) =
      completedPartsLists t := rfl

theorem completedPartsLists_upload (b k uid : String) (pn : Int) (body : List Nat)
    (t : List S3Call) :
    completedPartsLists (S3Call.uploadPart b k uid pn body :: t) =
      completedPartsLists t := rfl

theorem completedPartsLists_put (b k : String) (body : List Nat) (t : List S3Call) :
    completedPartsLists (S3Call.putObject b k body :: t) = completedPartsLists t := rfl

theorem completedPartsLists_complete (b k uid : String) (ps : List CompletedPart)
    (t : List S3Call) :
    completedPartsLists (S3Call.completeMultipartUpload b k uid ps :: t) =
      ps :: completedPartsLists t := rfl

theorem partNumberSeq_zero : partNumberSeq 0 = [] := rfl

theorem partNumberSeq_succ (n : Nat) :
    partNumberSeq (n + 1) = partNumberSeq n ++ [u64AsI64 ((1 + n) % U64_MOD)] := by
  simp [partNumberSeq, List.range_succ]

/-! ## Arithmetic helpers for the wrapping counter -/

theorem mod_u64_small {n : Nat} (h : n < U64_MOD) : n % U64_MOD = n :=
  Nat.mod_eq_of_lt h

theorem u64AsI64_small {n : Nat} (h : n < 2 ^ 63) : u64AsI64 n = (n : Int) := by
  rw [u64AsI64, if_pos h]

/-! ## Branch evaluation lemmas for the Upload operations -/

theorem write_empty (env : S3Env) (data : List Nat) :
    Upload.write env Upload.Empty data = ([], Except.ok Upload.Empty) := rfl

theorem write_regular_small {env : S3Env} {b k : String} {buf data : List Nat}
    (h : (buf ++ data).length < MULTIPART_MINIMUM_PART_SIZE) :
    Upload.write env (Upload.Regular b k buf) data =
      ([], Except.ok (Upload.Regular b k (buf ++ data))) := by
  have hlt := Nat.not_le.mpr h
  simp only [List.length_append] at hlt
  simp [Upload.write, hlt]

theorem write_regular_promote {env : S3Env} {b k uid etag : String}
    {buf data : List Nat}
    (h : MULTIPART_MINIMUM_PART_SIZE ≤ (buf ++ data).length)
    (hc : env.create_multipart_upload_resp b k = some uid)
    (he : env.upload_part_resp b k uid 1 (buf ++ data) = some etag) :
    Upload.write env (Upload.Regular b k buf) data =
      ([S3Call.createMultipartUpload b k,
        S3Call.uploadPart b k uid 1 (buf ++ data)],
       Except.ok (Upload.Multipart b k uid ⟨2⟩ [] [⟨some etag, some 1⟩])) := by
  have hlen := h
  simp only [List.length_append] at hlen
  have h1 : (1 : Nat) % U64_MOD = 1 := mod_u64_small (by norm_num [U64_MOD])
  have h2 : (2 : Nat) % U64_MOD = 2 := mod_u64_small (by norm_num [U64_MOD])
  have h3 : u64AsI64 1 = 1 := u64AsI64_small (by norm_num)
  simp [Upload.write, Upload.create_multipart_upload, Upload.upload_part,
    IdGenerator.new, IdGenerator.next, hlen, hc, h1, h2, h3, he]

theorem write_regular_promote_create_fails {env : S3Env} {b k : String}
    {buf data : List Nat}
    (h : MULTIPART_MINIMUM_PART_SIZE ≤ (buf ++ data).length)
    (hc : env.create_multipart_upload_resp b k = none) :
    Upload.write env (Upload.Regular b k buf) data =
      ([S3Call.createMultipartUpload b k],
       Except.error "upload id was unset after multipart upload was created") := by
  have hlen := h
  simp only [List.length_append] at hlen
  simp [Upload.write, Upload.create_multipart_upload, hlen, hc]

theorem write_regular_promote_part_fails {env : S3Env} {b k uid : String}
    {buf data : List Nat}
    (h : MULTIPART_MINIMUM_PART_SIZE ≤ (buf ++ data).length)
    (hc : env.create_multipart_upload_resp b k = some uid)
    (he : env.upload_part_resp b k uid 1 (buf ++ data) = none) :
    Upload.write env (Upload.Regular b k buf) data =
      ([S3Call.createMultipartUpload b k,
        S3Call.uploadPart b k uid 1 (buf ++ data)],
       Except.error "uploaded multipart did not return e-tag") := by
  have hlen := h
  simp only [List.length_append] at hlen
  have h1 : (1 : Nat) % U64_MOD = 1 := mod_u64_small (by norm_num [U64_MOD])
  have h3 : u64AsI64 1 = 1 := u64AsI64_small (by norm_num)
  simp [Upload.write, Upload.create_multipart_upload, Upload.upload_part,
    IdGenerator.new, IdGenerator.next, hlen, hc, h1, h3, he]

theorem write_multipart_small {env : S3Env} {b k uid : String} {gen : IdGenerator}
    {buf data : List Nat} {parts : List CompletedPart}
    (h : (buf ++ data).length < MULTIPART_MINIMUM_PART_SIZE) :
    Upload.write env (Upload.Multipart b k uid gen buf parts) data =
      ([], Except.ok (Upload.Multipart b k uid gen (buf ++ data) parts)) := by
  have hlt := Nat.not_le.mpr h
  simp only [List.length_append] at hlt
  simp [Upload.write, hlt]

theorem write_multipart_flush {env : S3Env} {b k uid etag : String}
    {gen : IdGenerator} {buf data : List Nat} {parts : List CompletedPart}
    (h : MULTIPART_MINIMUM_PART_SIZE ≤ (buf ++ data).length)
    (he : env.upload_part_resp b k uid (u64AsI64 gen.counter) (buf ++ data) =
      some etag) :
    Upload.write env (Upload.Multipart b k uid gen buf parts) data =
      ([S3Call.uploadPart b k uid (u64AsI64 gen.counter) (buf ++ data)],
       Except.ok (Upload.Multipart b k uid ⟨(gen.counter + 1) % U64_MOD⟩ []
         (parts ++ [⟨some etag, some (u64AsI64 gen.counter)⟩]))) := by
  have hlen := h
  simp only [List.length_append] at hlen
  simp [Upload.write, Upload.upload_part, IdGenerator.next, hlen, he]

theorem write_multipart_flush_fails {env : S3Env} {b k uid : String}
    {gen : IdGenerator} {buf data : List Nat} {parts : List CompletedPart}
    (h : MULTIPART_MINIMUM_PART_SIZE ≤ (buf ++ data).length)
    (he : env.upload_part_resp b k uid (u64AsI64 gen.counter) (buf ++ data) = none) :
    Upload.write env (Upload.Multipart b k uid gen buf parts) data =
      ([S3Call.uploadPart b k uid (u64AsI64 gen.counter) (buf ++ data)],
       Except.error "uploaded multipart did not return e-tag") := by
  have hlen := h
  simp only [List.length_append] at hlen
  simp [Upload.write, Upload.upload_part, IdGenerator.next, hlen, he]

theorem finish_empty (env : S3Env) :
    Upload.finish env Upload.Empty =
      ([], Except.error "Upload is in invalid state, cannot finish") := rfl

theorem finish_regular (env : S3Env) (b k : String) (buf : List Nat) :
    Upload.finish env (Upload.Regular b k buf) =
      ([S3Call.putObject b k buf],
       if env.put_object_ok b k buf then Except.ok ()
       else Except.error "put_object failed") := rfl

theorem finish_multipart_nil {env : S3Env} {b k uid : String} {gen : IdGenerator}
    {parts : List CompletedPart} :
    Upload.finish env (Upload.Multipart b k uid gen [] parts) =
      ([S3Call.completeMultipartUpload b k uid parts],
       if env.complete_multipart_upload_ok b k uid parts then Except.ok ()
       else Except.error "complete_multipart_upload failed") := by
  simp [Upload.finish]

theorem finish_multipart_tail {env : S3Env} {b k uid etag : String}
    {gen : IdGenerator} {buf : List Nat} {parts : List CompletedPart}
    (hne : buf ≠ [])
    (he : env.upload_part_resp b k uid (u64AsI64 gen.counter) buf = some etag) :
    Upload.finish env (Upload.Multipart b k uid gen buf parts) =
      ([S3Call.uploadPart b k uid (u64AsI64 gen.counter) buf,
        S3Call.completeMultipartUpload b k uid
          (parts ++ [⟨some etag, some (u64AsI64 gen.counter)⟩])],
       if env.complete_multipart_upload_ok b k uid
            (parts ++ [⟨some etag, some (u64AsI64 gen.counter)⟩]) then Except.ok ()
       else Except.error "complete_multipart_upload failed") := by
  simp [Upload.finish, Upload.upload_part, IdGenerator.next,
    List.isEmpty_iff.not.mpr hne, he]

theorem finish_multipart_tail_fails {env : S3Env} {b k uid : String}
    {gen : IdGenerator} {buf : List Nat} {parts : List CompletedPart}
    (hne : buf ≠ [])
    (he : env.upload_part_resp b k uid (u64AsI64 gen.counter) buf = none) :
    Upload.finish env (Upload.Multipart b k uid gen buf parts) =
      ([S3Call.uploadPart b k uid (u64AsI64 gen.counter) buf],
       Except.error "uploaded multipart did not return e-tag") := by
  simp [Upload.finish, Upload.upload_part, IdGenerator.next,
    List.isEmpty_iff.not.mpr hne, he]

theorem destroy_empty (env : S3Env) :
    Upload.destroy env Upload.Empty = ([], Except.ok ()) := rfl

theorem destroy_regular (env : S3Env) (b k : String) (buf : List Nat) :
    Upload.destroy env (Upload.Regular b k buf) = ([], Except.ok ()) := rfl

theorem destroy_multipart (env : S3Env) (b k uid : String) (gen : IdGenerator)
    (buf : List Nat) (parts : List CompletedPart) :
    Upload.destroy env (Upload.Multipart b k uid gen buf parts) =
      ([S3Call.abortMultipartUpload b k uid],
       if env.abort_multipart_upload_ok b k uid then Except.ok ()
       else Except.error "abort_multipart_upload failed") := rfl

theorem uploadTraceInv_new (bucket key : String) :
    uploadTraceInv bucket key [] [] (Upload.new bucket key) := by
  simp [Upload.new, uploadTraceInv]

theorem partNumberSeq_one : partNumberSeq 1 = [1] := by
  have h0 : List.range 1 = [0] := rfl
  have h1 : (1 : Nat) % U64_MOD = 1 := mod_u64_small (by norm_num [U64_MOD])
  simp [partNumberSeq, h0, h1,
    u64AsI64_small (by norm_num : (1 : Nat) < 2 ^ 63)]

theorem write_preserves_inv {env : S3Env} {bucket key : String} {bytes : List Nat}
    {t : List S3Call} {u u2 : Upload} {w : List Nat} {c : List S3Call}
    (hinv : uploadTraceInv bucket key bytes t u)
    (hw : Upload.write env u w = (c, Except.ok u2)) :
    uploadTraceInv bucket key (bytes ++ w) (t ++ c) u2 := by
  cases u with
  | Empty => exact absurd hinv (by simp [uploadTraceInv])
  | Regular b k buf =>
    obtain ⟨rfl, rfl, rfl, rfl⟩ := hinv
    by_cases hlen : MULTIPART_MINIMUM_PART_SIZE ≤ (buf ++ w).length
    · cases hc : env.create_multipart_upload_resp b k with
      | none =>
        rw [write_regular_promote_create_fails hlen hc] at hw
        exact absurd hw (by simp)
      | some uid =>
        cases he : env.upload_part_resp b k uid 1 (buf ++ w) with
        | none =>
          rw [write_regular_promote_part_fails hlen hc he] at hw
          exact absurd hw (by simp)
        | some etag =>
          rw [write_regular_promote hlen hc he] at hw
          injection hw with hw1 hw2
          injection hw2 with hw2
          subst hw1; subst hw2
          refine ⟨rfl, rfl, rfl, rfl, ?_, rfl, ?_, ?_, ?_⟩
          · simp [uploadPartBodies]
          · simp [uploadPartNumbers, partNumberSeq_one]
          · simp [partNumberSeq_one]
          · simp
            exact (mod_u64_small (by norm_num [U64_MOD])).symm
    · rw [write_regular_small (Nat.not_le.mp hlen)] at hw
      injection hw with hw1 hw2
      injection hw2 with hw2
      subst hw1; subst hw2
      exact ⟨rfl, rfl, by simp, rfl⟩
  | Multipart b k uid gen buf parts =>
    obtain ⟨rfl, rfl, h3, h4, h5, h6, h7, h8, h9⟩ := hinv
    by_cases hlen : MULTIPART_MINIMUM_PART_SIZE ≤ (buf ++ w).length
    · cases he : env.upload_part_resp b k uid (u64AsI64 gen.counter) (buf ++ w) with
      | none =>
        rw [write_multipart_flush_fails hlen he] at hw
        exact absurd hw (by simp)
      | some etag =>
        rw [write_multipart_flush hlen he] at hw
        injection hw with hw1 hw2
        injection hw2 with hw2
        subst hw1; subst hw2
        refine ⟨rfl, rfl, ?_, ?_, ?_, ?_, ?_, ?_, ?_⟩
        · rw [putObjectBodies_append, h3]; rfl
        · rw [completedPartsLists_append, h4]; rfl
        · simp only [uploadPartBodies_append, uploadPartBodies_upload,
            uploadPartBodies_nil, List.flatten_append, List.flatten_cons,
            List.flatten_nil, List.append_nil]
          rw [← List.append_assoc, h5]
        · simp only [uploadPartBodies_append, uploadPartBodies_upload,
            uploadPartBodies_nil, List.length_append, List.length_cons,
            List.length_nil, h6]
        · simp only [uploadPartNumbers_append, uploadPartNumbers_upload,
            uploadPartNumbers_nil, h7, List.length_append, List.length_cons,
            List.length_nil, partNumberSeq_succ, h9]
        · simp only [List.map_append, h8, List.length_append, List.length_cons,
            List.length_nil, partNumberSeq_succ, List.map_cons, List.map_nil, h9]
        · simp only [List.length_append, List.length_cons, List.length_nil]
          rw [h9, Nat.mod_add_mod]
          congr 1
    · rw [write_multipart_small (Nat.not_le.mp hlen)] at hw
      injection hw with hw1 hw2
      injection hw2 with hw2
      subst hw1; subst hw2
      refine ⟨rfl, rfl, by simpa using h3, by simpa using h4, ?_,
        by simpa using h6, by simpa using h7, h8, h9⟩
      rw [List.append_nil, ← List.append_assoc, h5]

theorem runWrites_preserves_inv {env : S3Env} {bucket key : String} :
    ∀ (ws : List (List Nat)) {u u2 : Upload} {bytes : List Nat}
      {t c : List S3Call},
    uploadTraceInv bucket key bytes t u →
    Upload.runWrites env u ws = (c, Except.ok u2) →
    uploadTraceInv bucket key (bytes ++ ws.flatten) (t ++ c) u2 := by
  intro ws
  induction ws with
  | nil =>
    intro u u2 bytes t c hinv hr
    simp only [Upload.runWrites] at hr
    injection hr with hr1 hr2
    injection hr2 with hr2
    subst hr1; subst hr2
    simpa using hinv
  | cons w ws ih =>
    intro u u2 bytes t c hinv hr
    simp only [Upload.runWrites] at hr
    cases hW : Upload.write env u w with
    | mk c1 r1 =>
      rw [hW] at hr
      cases r1 with
      | error e => exact absurd hr (by simp)
      | ok u3 =>
        simp only at hr
        cases hR : Upload.runWrites env u3 ws with
        | mk c2 r2 =>
          rw [hR] at hr
          injection hr with hr1 hr2
          subst hr1; subst hr2
          have h1 := write_preserves_inv hinv hW
          have h2 := ih h1 hR
          simpa [List.append_assoc] using h2

theorem partNumberSeq_length (n : Nat) : (partNumberSeq n).length = n := by
  simp [partNumberSeq]

theorem finish_inv {env : S3Env} {bucket key : String} {bytes : List Nat}
    {t t2 : List S3Call} {u : Upload}
    (hinv : uploadTraceInv bucket key bytes t u)
    (hf : Upload.finish env u = (t2, Except.ok ())) :
    ((putObjectBodies (t ++ t2) = [bytes] ∧ uploadPartBodies (t ++ t2) = [])
      ∨ (putObjectBodies (t ++ t2) = [] ∧
         (uploadPartBodies (t ++ t2)).flatten = bytes)) ∧
    uploadPartNumbers (t ++ t2) =
      partNumberSeq (uploadPartNumbers (t ++ t2)).length ∧
    (∀ ps ∈ completedPartsLists (t ++ t2),
      List.map CompletedPart.part_number ps =
        List.map some (partNumberSeq ps.length) ∧
      ps.length = (uploadPartBodies (t ++ t2)).length) := by
  cases u with
  | Empty => exact absurd hinv (by simp [uploadTraceInv])
  | Regular b k buf =>
    obtain ⟨rfl, rfl, rfl, rfl⟩ := hinv
    rw [finish_regular] at hf
    cases hok : env.put_object_ok b k buf with
    | false => rw [hok] at hf; exact absurd hf (by simp)
    | true =>
      rw [hok] at hf
      injection hf with hf1 hf2
      subst hf1
      refine ⟨Or.inl ⟨rfl, rfl⟩, rfl, ?_⟩
      intro ps hps
      simp [completedPartsLists] at hps
  | Multipart b k uid gen buf parts =>
    obtain ⟨rfl, rfl, h3, h4, h5, h6, h7, h8, h9⟩ := hinv
    cases hbuf : buf with
    | nil =>
      subst hbuf
      rw [finish_multipart_nil] at hf
      cases hok : env.complete_multipart_upload_ok b k uid parts with
      | false => rw [hok] at hf; exact absurd hf (by simp)
      | true =>
        rw [hok] at hf
        injection hf with hf1 hf2
        subst hf1
        have hupn : uploadPartNumbers (t ++ [S3Call.completeMultipartUpload b k uid parts]) =
            partNumberSeq parts.length := by
          rw [uploadPartNumbers_append, uploadPartNumbers_complete,
            uploadPartNumbers_nil, List.append_nil, h7]
        refine ⟨Or.inr ⟨?_, ?_⟩, ?_, ?_⟩
        · rw [putObjectBodies_append, h3]; rfl
        · rw [uploadPartBodies_append, uploadPartBodies_complete,
            uploadPartBodies_nil, List.append_nil]
          simpa using h5
        · rw [hupn, partNumberSeq_length]
        · intro ps hps
          rw [completedPartsLists_append, h4] at hps
          simp only [completedPartsLists_complete, completedPartsLists_nil,
            List.nil_append, List.mem_singleton] at hps
          subst hps
          refine ⟨h8, ?_⟩
          rw [uploadPartBodies_append, uploadPartBodies_complete,
            uploadPartBodies_nil, List.append_nil]
          exact h6
    | cons x xs =>
      subst hbuf
      cases he : env.upload_part_resp b k uid (u64AsI64 gen.counter) (x :: xs) with
      | none =>
        rw [finish_multipart_tail_fails (by simp) he] at hf
        exact absurd hf (by simp)
      | some etag =>
        rw [finish_multipart_tail (by simp) he] at hf
        cases hok : env.complete_multipart_upload_ok b k uid
            (parts ++ [⟨some etag, some (u64AsI64 gen.counter)⟩]) with
        | false => rw [hok] at hf; exact absurd hf (by simp)
        | true =>
          rw [hok] at hf
          injection hf with hf1 hf2
          subst hf1
          have hupn : uploadPartNumbers (t ++
              [S3Call.uploadPart b k uid (u64AsI64 gen.counter) (x :: xs),
               S3Call.completeMultipartUpload b k uid
                 (parts ++ [⟨some etag, some (u64AsI64 gen.counter)⟩])]) =
              partNumberSeq (parts.length + 1) := by
            rw [uploadPartNumbers_append, uploadPartNumbers_upload,
              uploadPartNumbers_complete, uploadPartNumbers_nil, h7,
              partNumberSeq_succ, h9]
          have hupb : uploadPartBodies (t ++
              [S3Call.uploadPart b k uid (u64AsI64 gen.counter) (x :: xs),
               S3Call.completeMultipartUpload b k uid
                 (parts ++ [⟨some etag, some (u64AsI64 gen.counter)⟩])]) =
              uploadPartBodies t ++ [x :: xs] := by
            rw [uploadPartBodies_append, uploadPartBodies_upload,
              uploadPartBodies_complete, uploadPartBodies_nil]
          refine ⟨Or.inr ⟨?_, ?_⟩, ?_, ?_⟩
          · rw [putObjectBodies_append, h3]; rfl
          · rw [hupb, List.flatten_append]
            simpa using h5
          · rw [hupn, partNumberSeq_length]
          · intro ps hps
            rw [completedPartsLists_append, h4] at hps
            simp only [completedPartsLists_upload, completedPartsLists_complete,
              completedPartsLists_nil, List.nil_append, List.mem_singleton] at hps
            subst hps
            constructor
            · rw [List.map_append, h8, List.length_append, List.length_cons,
                List.length_nil, partNumberSeq_succ, List.map_append, h9]
              rfl
            · rw [hupb, List.length_append, List.length_append]
              simp [h6]

theorem write_partCount_le {env : S3Env} {u : Upload} {w : List Nat}
    {c : List S3Call} {r : Except String Upload}
    (h : Upload.write env u w = (c, r)) : (uploadPartNumbers c).length ≤ 1 := by
  cases u with
  | Empty =>
    rw [write_empty] at h
    injection h with h1 h2
    subst h1
    simp [uploadPartNumbers_nil]
  | Regular b k buf =>
    by_cases hlen : MULTIPART_MINIMUM_PART_SIZE ≤ (buf ++ w).length
    · cases hc : env.create_multipart_upload_resp b k with
      | none =>
        rw [write_regular_promote_create_fails hlen hc] at h
        injection h with h1 h2
        subst h1
        simp [uploadPartNumbers]
      | some uid =>
        cases he : env.upload_part_resp b k uid 1 (buf ++ w) with
        | none =>
          rw [write_regular_promote_part_fails hlen hc he] at h
          injection h with h1 h2
          subst h1
          simp [uploadPartNumbers]
        | some etag =>
          rw [write_regular_promote hlen hc he] at h
          injection h with h1 h2
          subst h1
          simp [uploadPartNumbers]
    · rw [write_regular_small (Nat.not_le.mp hlen)] at h
      injection h with h1 h2
      subst h1
      simp [uploadPartNumbers_nil]
  | Multipart b k uid gen buf parts =>
    by_cases hlen : MULTIPART_MINIMUM_PART_SIZE ≤ (buf ++ w).length
    · cases he : env.upload_part_resp b k uid (u64AsI64 gen.counter) (buf ++ w) with
      | none =>
        rw [write_multipart_flush_fails hlen he] at h
        injection h with h1 h2
        subst h1
        simp [uploadPartNumbers]
      | some etag =>
        rw [write_multipart_flush hlen he] at h
        injection h with h1 h2
        subst h1
        simp [uploadPartNumbers]
    · rw [write_multipart_small (Nat.not_le.mp hlen)] at h
      injection h with h1 h2
      subst h1
      simp [uploadPartNumbers_nil]

theorem runWrites_partCount_le {env : S3Env} :
    ∀ (ws : List (List Nat)) {u : Upload} {c : List S3Call}
      {r : Except String Upload},
    Upload.runWrites env u ws = (c, r) →
    (uploadPartNumbers c).length ≤ ws.length := by
  intro ws
  induction ws with
  | nil =>
    intro u c r h
    simp only [Upload.runWrites] at h
    injection h with h1 h2
    subst h1
    simp [uploadPartNumbers_nil]
  | cons w ws ih =>
    intro u c r h
    simp only [Upload.runWrites] at h
    cases hW : Upload.write env u w with
    | mk c1 r1 =>
      rw [hW] at h
      cases r1 with
      | error e =>
        simp only at h
        injection h with h1 h2
        subst h1
        calc (uploadPartNumbers c1).length ≤ 1 := write_partCount_le hW
          _ ≤ (w :: ws).length := by simp
      | ok u3 =>
        simp only at h
        cases hR : Upload.runWrites env u3 ws with
        | mk c2 r2 =>
          rw [hR] at h
          injection h with h1 h2
          subst h1
          have hb1 := write_partCount_le hW
          have hb2 := ih hR
          simp only [uploadPartNumbers_append, List.length_append,
            List.length_cons]
          omega

theorem finish_partCount_le {env : S3Env} {u : Upload} {c : List S3Call}
    {r : Except String Unit} (h : Upload.finish env u = (c, r)) :
    (uploadPartNumbers c).length ≤ 1 := by
  cases u with
  | Empty =>
    rw [finish_empty] at h
    injection h with h1 h2
    subst h1
    simp [uploadPartNumbers_nil]
  | Regular b k buf =>
    rw [finish_regular] at h
    injection h with h1 h2
    subst h1
    simp [uploadPartNumbers]
  | Multipart b k uid gen buf parts =>
    cases hbuf : buf with
    | nil =>
      subst hbuf
      rw [finish_multipart_nil] at h
      injection h with h1 h2
      subst h1
      simp [uploadPartNumbers]
    | cons x xs =>
      subst hbuf
      cases he : env.upload_part_resp b k uid (u64AsI64 gen.counter) (x :: xs) with
      | none =>
        rw [finish_multipart_tail_fails (by simp) he] at h
        injection h with h1 h2
        subst h1
        simp [uploadPartNumbers]
      | some etag =>
        rw [finish_multipart_tail (by simp) he] at h
        injection h with h1 h2
        subst h1
        simp [uploadPartNumbers]

theorem partNumberSeq_eq_naturalSeq {n : Nat} (h : n < 2 ^ 63) :
    partNumberSeq n = naturalSeq n := by
  unfold partNumberSeq naturalSeq
  apply List.map_congr_left
  intro i hi
  rw [List.mem_range] at hi
  have hlt : 1 + i < 2 ^ 63 := by omega
  have hmod : (1 + i) % U64_MOD = 1 + i :=
    mod_u64_small (by have : (2:Nat) ^ 63 < 2 ^ 64 := by norm_num
                      simp only [U64_MOD]; omega)
  rw [hmod, u64AsI64_small hlt]
  simp [Int.ofNat_eq_coe]
  omega

theorem uploadPartBodies_length_eq_numbers (t : List S3Call) :
    (uploadPartBodies t).length = (uploadPartNumbers t).length := by
  induction t with
  | nil => rfl
  | cons c rest ih =>
    cases c with
    | createMultipartUpload b k =>
      rw [uploadPartBodies_create, uploadPartNumbers_create]; exact ih
    | uploadPart b k uid pn body =>
      rw [uploadPartBodies_upload, uploadPartNumbers_upload]
      simpa using ih
    | putObject b k body =>
      rw [uploadPartBodies_put, uploadPartNumbers_put]; exact ih
    | completeMultipartUpload b k uid ps =>
      rw [uploadPartBodies_complete, uploadPartNumbers_complete]; exact ih
    | abortMultipartUpload b k uid =>
      exact ih

theorem runWrites_singleton {env : S3Env} {u u2 : Upload} {w : List Nat}
    {c : List S3Call} (h : Upload.write env u w = (c, Except.ok u2)) :
    Upload.runWrites env u [w] = (c, Except.ok u2) := by
  simp [Upload.runWrites, h]

/-! ## Claim theorems -/

theorem runWrites_regular_small {env : S3Env} {bucket key : String} :
    ∀ (ws : List (List Nat)) (buf : List Nat),
    buf.length + ws.flatten.length < MULTIPART_MINIMUM_PART_SIZE →
    Upload.runWrites env (Upload.Regular bucket key buf) ws =
      ([], Except.ok (Upload.Regular bucket key (buf ++ ws.flatten))) := by
  intro ws
  induction ws with
  | nil =>
    intro buf h
    simp [Upload.runWrites]
  | cons w ws ih =>
    intro buf h
    simp only [List.flatten_cons, List.length_append] at h
    have h1 : (buf ++ w).length < MULTIPART_MINIMUM_PART_SIZE := by
      simp only [List.length_append]; omega
    have h2 := ih (buf ++ w) (by simp only [List.length_append]; omega)
    simp only [Upload.runWrites, write_regular_small h1, h2]
    simp [List.append_assoc]

theorem write_result_regular_lt {env : S3Env} {u : Upload} {data : List Nat}
    {c : List S3Call} {b k : String} {buf : List Nat}
    (h : Upload.write env u data = (c, Except.ok (Upload.Regular b k buf))) :
    buf.length < MULTIPART_MINIMUM_PART_SIZE := by
  cases u with
  | Empty =>
    rw [write_empty] at h
    simp at h
  | Regular b0 k0 buf0 =>
    by_cases hlen : MULTIPART_MINIMUM_PART_SIZE ≤ (buf0 ++ data).length
    · cases hc : env.create_multipart_upload_resp b0 k0 with
      | none =>
        rw [write_regular_promote_create_fails hlen hc] at h
        simp at h
      | some uid =>
        cases he : env.upload_part_resp b0 k0 uid 1 (buf0 ++ data) with
        | none =>
          rw [write_regular_promote_part_fails hlen hc he] at h
          simp at h
        | some etag =>
          rw [write_regular_promote hlen hc he] at h
          simp at h
    · rw [write_regular_small (Nat.not_le.mp hlen)] at h
      simp only [Prod.mk.injEq, Except.ok.injEq, Upload.Regular.injEq] at h
      obtain ⟨-, -, -, hbuf⟩ := h
      subst hbuf
      exact Nat.not_le.mp hlen
  | Multipart b0 k0 uid gen buf0 parts =>
    by_cases hlen : MULTIPART_MINIMUM_PART_SIZE ≤ (buf0 ++ data).length
    · cases he : env.upload_part_resp b0 k0 uid (u64AsI64 gen.counter)
          (buf0 ++ data) with
      | none =>
        rw [write_multipart_flush_fails hlen he] at h
        simp at h
      | some etag =>
        rw [write_multipart_flush hlen he] at h
        simp at h
    · rw [write_multipart_small (Nat.not_le.mp hlen)] at h
      simp at h

/-- C1: for every write sequence accepted by an upload created with
`Upload::new` and finalized with `Upload::finish`, the bytes delivered to the
object store equal the concatenation of the writes — either as the body of
the single `put_object` call (Regular path, no part uploads), or as the
in-order concatenation of all `upload_part` bodies (Multipart path, including
the tail part uploaded during finish, with no `put_object`). -/
theorem C1_round_trip_bytes {env : S3Env} {bucket key : String}
    {ws : List (List Nat)} {t1 t2 : List S3Call} {u : Upload}
    (hrun : Upload.runWrites env (Upload.new bucket key) ws =
      (t1, Except.ok u))
    (hfin : Upload.finish env u = (t2, Except.ok ())) :
    (putObjectBodies (t1 ++ t2) = [ws.flatten] ∧
       uploadPartBodies (t1 ++ t2) = []) ∨
    (putObjectBodies (t1 ++ t2) = [] ∧
       (uploadPartBodies (t1 ++ t2)).flatten = ws.flatten) := by
  have hinv := runWrites_preserves_inv ws (uploadTraceInv_new bucket key) hrun
  simp only [List.nil_append] at hinv
  exact (finish_inv hinv hfin).1

/-- C1 witness: two small writes followed by finish stay on the Regular path
and deliver the concatenated bytes as the single `put_object` body. -/
theorem C1_round_trip_bytes_witness :
    Upload.runWrites envAllOk (Upload.new "b" "k") [[1, 2], [3]] =
      ([], Except.ok (Upload.Regular "b" "k" [1, 2, 3])) ∧
    Upload.finish envAllOk (Upload.Regular "b" "k" [1, 2, 3]) =
      ([S3Call.putObject "b" "k" [1, 2, 3]], Except.ok ()) ∧
    ((putObjectBodies ([] ++ [S3Call.putObject "b" "k" [1, 2, 3]]) =
        [[1, 2, 3]] ∧
      uploadPartBodies ([] ++ [S3Call.putObject "b" "k" [1, 2, 3]]) = []) ∨
     (putObjectBodies ([] ++ [S3Call.putObject "b" "k" [1, 2, 3]]) = [] ∧
      (uploadPartBodies
          ([] ++ [S3Call.putObject "b" "k" [1, 2, 3]])).flatten =
        [1, 2, 3])) := by
  have hrun : Upload.runWrites envAllOk (Upload.new "b" "k") [[1, 2], [3]] =
      ([], Except.ok (Upload.Regular "b" "k" [1, 2, 3])) := rfl
  have hfin : Upload.finish envAllOk (Upload.Regular "b" "k" [1, 2, 3]) =
      ([S3Call.putObject "b" "k" [1, 2, 3]], Except.ok ()) := rfl
  exact ⟨hrun, hfin, C1_round_trip_bytes hrun hfin⟩

/-- C2: an `Upload::write` on a `Regular` state whose buffer reaches or
exceeds 5·1024·1024 bytes after appending issues `create_multipart_upload`
(failing when no upload id is returned), uploads the entire accumulated
buffer as part number 1 allocated from a fresh counter started at 1 (failing
when no ETag is returned), and on success transitions to `Multipart` with an
empty buffer, the counter at 2, and `parts` equal to exactly the one
completed part numbered 1. -/
theorem C2_regular_promotion {env : S3Env} {b k : String} {buf data : List Nat}
    (hlen : MULTIPART_MINIMUM_PART_SIZE ≤ (buf ++ data).length) :
    (env.create_multipart_upload_resp b k = none →
      Upload.write env (Upload.Regular b k buf) data =
        ([S3Call.createMultipartUpload b k],
         Except.error "upload id was unset after multipart upload was created")) ∧
    (∀ uid : String, env.create_multipart_upload_resp b k = some uid →
      env.upload_part_resp b k uid 1 (buf ++ data) = none →
      Upload.write env (Upload.Regular b k buf) data =
        ([S3Call.createMultipartUpload b k,
          S3Call.uploadPart b k uid 1 (buf ++ data)],
         Except.error "uploaded multipart did not return e-tag")) ∧
    (∀ uid etag : String, env.create_multipart_upload_resp b k = some uid →
      env.upload_part_resp b k uid 1 (buf ++ data) = some etag →
      Upload.write env (Upload.Regular b k buf) data =
        ([S3Call.createMultipartUpload b k,
          S3Call.uploadPart b k uid 1 (buf ++ data)],
         Except.ok (Upload.Multipart b k uid ⟨2⟩ [] [⟨some etag, some 1⟩]))) :=
  ⟨fun hc => write_regular_promote_create_fails hlen hc,
   fun _ hc he => write_regular_promote_part_fails hlen hc he,
   fun _ _ hc he => write_regular_promote hlen hc he⟩

/-- C2 witness: a single 5 MiB write on a fresh upload promotes to Multipart
with exactly part 1 carrying the whole buffer. -/
theorem C2_regular_promotion_witness :
    MULTIPART_MINIMUM_PART_SIZE ≤ (([] : List Nat) ++ thresholdData).length ∧
    Upload.write envAllOk (Upload.Regular "b" "k" []) thresholdData =
      ([S3Call.createMultipartUpload "b" "k",
        S3Call.uploadPart "b" "k" "upload-id" 1 (([] : List Nat) ++ thresholdData)],
       Except.ok (Upload.Multipart "b" "k" "upload-id" ⟨2⟩ []
         [⟨some "etag", some 1⟩])) := by
  have hlen : MULTIPART_MINIMUM_PART_SIZE ≤
      (([] : List Nat) ++ thresholdData).length := by
    simp [thresholdData]
  exact ⟨hlen, (C2_regular_promotion hlen).2.2 "upload-id" "etag" rfl rfl⟩

/-- C3: a `Regular` upload's buffer is strictly below the 5 MiB threshold
after every successful `write` (first conjunct), and a write sequence whose
total size stays strictly below the threshold issues zero object-store RPCs
and remains `Regular` with all bytes buffered (second conjunct). -/
theorem C3_promotion_boundary :
    (∀ (env : S3Env) (u : Upload) (data : List Nat) (c : List S3Call)
       (b k : String) (buf : List Nat),
      Upload.write env u data = (c, Except.ok (Upload.Regular b k buf)) →
      buf.length < MULTIPART_MINIMUM_PART_SIZE) ∧
    (∀ (env : S3Env) (bucket key : String) (ws : List (List Nat)),
      ws.flatten.length < MULTIPART_MINIMUM_PART_SIZE →
      Upload.runWrites env (Upload.new bucket key) ws =
        ([], Except.ok (Upload.Regular bucket key ws.flatten))) := by
  constructor
  · intro env u data c b k buf h
    exact write_result_regular_lt h
  · intro env bucket key ws h
    have h2 := @runWrites_regular_small env bucket key ws [] (by simpa using h)
    simpa using h2

/-- C3 witness: a 1-byte write leaves a Regular buffer below the threshold,
and two small writes issue no RPCs at all. -/
theorem C3_promotion_boundary_witness :
    Upload.write envAllOk (Upload.Regular "b" "k" []) [1] =
      ([], Except.ok (Upload.Regular "b" "k" [1])) ∧
    ([1] : List Nat).length < MULTIPART_MINIMUM_PART_SIZE ∧
    ([[1, 2], [3]] : List (List Nat)).flatten.length <
      MULTIPART_MINIMUM_PART_SIZE ∧
    Upload.runWrites envAllOk (Upload.new "b" "k") [[1, 2], [3]] =
      ([], Except.ok (Upload.Regular "b" "k" [[1, 2], [3]].flatten)) := by
  refine ⟨rfl, ?_, by decide, ?_⟩
  · exact C3_promotion_boundary.1 envAllOk (Upload.Regular "b" "k" []) [1] []
      "b" "k" [1] rfl
  · exact C3_promotion_boundary.2 envAllOk "b" "k" [[1, 2], [3]] (by decide)

/-- C4 counterexample: `Upload::write` on the `Empty` state does not fail —
the catch-all `any => any` arm returns `Ok` with the state still `Empty` and
no RPC issued, so the claim that the call fails is false at this input. -/
theorem C4_write_empty_counterexample :
    Upload.write envAllOk Upload.Empty [0] = ([], Except.ok Upload.Empty) := rfl

/-- C4 amended: calling `Upload::write` in the `Empty` state is silently
ignored: the call succeeds, issues no RPC, and leaves the state `Empty`; the
Empty-state programmer error only surfaces later, when `finish` is called. -/
theorem C4_write_empty_noop (env : S3Env) (data : List Nat) :
    Upload.write env Upload.Empty data = ([], Except.ok Upload.Empty) ∧
    (Upload.finish env Upload.Empty).2 =
      Except.error "Upload is in invalid state, cannot finish" :=
  ⟨write_empty env data, rfl⟩

/-- C6: over any successful write sequence plus finish, the part numbers
passed to `upload_part` form the strictly increasing prefix `1, 2, 3, …` of
the positive integers, and every parts list passed to
`complete_multipart_upload` is numbered `1, …, n` in ascending order.  The
size hypothesis keeps the per-upload `u64` part counter below its wrap-around
point, which no physically realizable sequence can reach. -/
theorem C6_monotone_parts {env : S3Env} {bucket key : String}
    {ws : List (List Nat)} {t1 t2 : List S3Call} {u : Upload}
    (hrun : Upload.runWrites env (Upload.new bucket key) ws =
      (t1, Except.ok u))
    (hfin : Upload.finish env u = (t2, Except.ok ()))
    (hsmall : ws.length + 1 < 2 ^ 63) :
    uploadPartNumbers (t1 ++ t2) =
      naturalSeq (uploadPartNumbers (t1 ++ t2)).length ∧
    (∀ ps ∈ completedPartsLists (t1 ++ t2),
      List.map CompletedPart.part_number ps =
        List.map some (naturalSeq ps.length)) := by
  have hinv := runWrites_preserves_inv ws (uploadTraceInv_new bucket key) hrun
  simp only [List.nil_append] at hinv
  have hfin2 := finish_inv hinv hfin
  have hb1 := runWrites_partCount_le ws hrun
  have hb2 := finish_partCount_le hfin
  have hlen : (uploadPartNumbers (t1 ++ t2)).length ≤ ws.length + 1 := by
    rw [uploadPartNumbers_append, List.length_append]; omega
  constructor
  · rw [hfin2.2.1, partNumberSeq_length]
    exact congrArg naturalSeq (partNumberSeq_length _) ▸
      partNumberSeq_eq_naturalSeq (by omega)
  · intro ps hps
    obtain ⟨hmap, hlen2⟩ := hfin2.2.2 ps hps
    rw [hmap]
    have hps_len : ps.length ≤ ws.length + 1 := by
      rw [hlen2, uploadPartBodies_length_eq_numbers]; omega
    exact congrArg (List.map some) (partNumberSeq_eq_naturalSeq (by omega))

/-- C6 witness: one 5 MiB write promotes and uploads part 1; finish completes
with the single part; the emitted part numbers are exactly `[1]`. -/
theorem C6_monotone_parts_witness :
    Upload.runWrites envAllOk (Upload.new "b" "k") [thresholdData] =
      ([S3Call.createMultipartUpload "b" "k",
        S3Call.uploadPart "b" "k" "upload-id" 1 thresholdData],
       Except.ok (Upload.Multipart "b" "k" "upload-id" ⟨2⟩ []
         [⟨some "etag", some 1⟩])) ∧
    Upload.finish envAllOk
        (Upload.Multipart "b" "k" "upload-id" ⟨2⟩ [] [⟨some "etag", some 1⟩]) =
      ([S3Call.completeMultipartUpload "b" "k" "upload-id"
          [⟨some "etag", some 1⟩]], Except.ok ()) ∧
    ([thresholdData].length + 1 < 2 ^ 63) ∧
    (uploadPartNumbers
        ([S3Call.createMultipartUpload "b" "k",
          S3Call.uploadPart "b" "k" "upload-id" 1 thresholdData] ++
         [S3Call.completeMultipartUpload "b" "k" "upload-id"
            [⟨some "etag", some 1⟩]]) =
      naturalSeq (uploadPartNumbers
        ([S3Call.createMultipartUpload "b" "k",
          S3Call.uploadPart "b" "k" "upload-id" 1 thresholdData] ++
         [S3Call.completeMultipartUpload "b" "k" "upload-id"
            [⟨some "etag", some 1⟩]])).length ∧
     ∀ ps ∈ completedPartsLists
        ([S3Call.createMultipartUpload "b" "k",
          S3Call.uploadPart "b" "k" "upload-id" 1 thresholdData] ++
         [S3Call.completeMultipartUpload "b" "k" "upload-id"
            [⟨some "etag", some 1⟩]]),
       List.map CompletedPart.part_number ps =
         List.map some (naturalSeq ps.length)) := by
  have hlen : MULTIPART_MINIMUM_PART_SIZE ≤
      (([] : List Nat) ++ thresholdData).length := by
    simp [thresholdData]
  have hw := @write_regular_promote envAllOk "b" "k" "upload-id" "etag" []
    thresholdData hlen rfl rfl
  have hrun : Upload.runWrites envAllOk (Upload.new "b" "k") [thresholdData] =
      ([S3Call.createMultipartUpload "b" "k",
        S3Call.uploadPart "b" "k" "upload-id" 1 thresholdData],
       Except.ok (Upload.Multipart "b" "k" "upload-id" ⟨2⟩ []
         [⟨some "etag", some 1⟩])) := by
    rw [List.nil_append] at hw
    exact runWrites_singleton hw
  have hfin : Upload.finish envAllOk
      (Upload.Multipart "b" "k" "upload-id" ⟨2⟩ [] [⟨some "etag", some 1⟩]) =
      ([S3Call.completeMultipartUpload "b" "k" "upload-id"
          [⟨some "etag", some 1⟩]], Except.ok ()) := rfl
  exact ⟨hrun, hfin, by decide, C6_monotone_parts hrun hfin (by decide)⟩

/-- C5: `create` immediately followed by `release` issues exactly one
`put_object` with an empty body (a zero-byte object) and replies ok; in
general `finish` on a `Regular` upload always issues exactly one `put_object`
carrying the remaining buffer, even when it is empty; `finish` on `Empty`
fails with the invalid-state error, which `release` surfaces as `EIO`. -/
theorem C5_zero_byte_put :
    (∀ (env : S3Env) (bp : BucketAndPrefix) (name : String)
       (fs1 : S3WriteOnlyFilesystem) (rep : FsReply),
      (S3WriteOnlyFilesystem.new bp).create ROOT_DIRECTORY_INODE name =
        (fs1, rep) →
      env.put_object_ok bp.s3_bucket_name (composeKey bp.prefix_path name) [] =
        true →
      rpcCalls (S3WriteOnlyFilesystem.release env fs1 10).2.1 =
        [S3Call.putObject bp.s3_bucket_name (composeKey bp.prefix_path name) []] ∧
      (S3WriteOnlyFilesystem.release env fs1 10).2.2 = FsReply.ok) ∧
    (∀ (env : S3Env) (b k : String) (buf : List Nat),
      (Upload.finish env (Upload.Regular b k buf)).1 =
        [S3Call.putObject b k buf]) ∧
    (∀ (env : S3Env) (b k : String) (buf : List Nat),
      env.put_object_ok b k buf = true →
      Upload.finish env (Upload.Regular b k buf) =
        ([S3Call.putObject b k buf], Except.ok ())) ∧
    (∀ env : S3Env, (Upload.finish env Upload.Empty).2 =
      Except.error "Upload is in invalid state, cannot finish") ∧
    (∀ (env : S3Env) (fs : S3WriteOnlyFilesystem) (ino : Nat) (node : Node),
      STATIC_INODES.contains ino = false →
      mapLookup fs.nodes ino = some node →
      node.upload = Upload.Empty →
      (S3WriteOnlyFilesystem.release env fs ino).2.2 =
        FsReply.error EIO_ERRNO) := by
  refine ⟨?_, ?_, ?_, ?_, ?_⟩
  · intro env bp name fs1 rep hcreate hput
    have h10 : (10 : Nat) % U64_MOD = 10 := mod_u64_small (by norm_num [U64_MOD])
    have h11 : (10 + 1 : Nat) % U64_MOD = 11 := mod_u64_small (by norm_num [U64_MOD])
    have hc : (S3WriteOnlyFilesystem.new bp).create ROOT_DIRECTORY_INODE name =
        ({ id_generator := ⟨11⟩,
           nodes := [(10, Node.new 10 bp.s3_bucket_name
             (composeKey bp.prefix_path name))],
           s3_bucket := bp.s3_bucket_name,
           s3_prefix_path := bp.prefix_path },
         FsReply.created (Node.new 10 bp.s3_bucket_name
           (composeKey bp.prefix_path name)).file_attr GENERATION 10) := by
      simp [S3WriteOnlyFilesystem.create, S3WriteOnlyFilesystem.new,
        IdGenerator.new, IdGenerator.next, mapInsert, mapRemove, h10, h11]
    rw [hc] at hcreate
    injection hcreate with hfs hrep
    subst hfs
    constructor
    · simp [S3WriteOnlyFilesystem.release, STATIC_INODES, ROOT_DIRECTORY_INODE,
        HELP_EN_INODE, HELP_DE_INODE, mapLookup, mapRemove,
        Node.finish, Node.new, Upload.new, Upload.finish, hput, rpcCalls]
    · simp [S3WriteOnlyFilesystem.release, STATIC_INODES, ROOT_DIRECTORY_INODE,
        HELP_EN_INODE, HELP_DE_INODE, mapLookup, mapRemove,
        Node.finish, Node.new, Upload.new, Upload.finish, hput]
  · intro env b k buf
    rw [finish_regular]
  · intro env b k buf hput
    rw [finish_regular, hput]
    simp
  · intro env
    rfl
  · intro env fs ino node hstatic hlook hupload
    simp only [STATIC_INODES, List.contains_cons, List.contains_nil,
      Bool.or_eq_false_iff, beq_eq_false_iff_ne, ne_eq] at hstatic
    simp [S3WriteOnlyFilesystem.release, STATIC_INODES, hstatic.1,
      hstatic.2.1, hstatic.2.2.1, hlook, Node.finish, hupload, Upload.finish]

/-- C5 witness: mounting `b` with prefix `pre`, creating `a.txt` and
releasing it immediately issues exactly `put_object("b", "pre/a.txt", [])`
and replies ok; releasing a node whose upload is `Empty` replies `EIO`. -/
theorem C5_zero_byte_put_witness :
    ((S3WriteOnlyFilesystem.new ⟨"b", some "pre"⟩).create ROOT_DIRECTORY_INODE
        "a.txt" =
      ({ id_generator := ⟨11⟩,
         nodes := [(10, Node.new 10 "b" "pre/a.txt")],
         s3_bucket := "b",
         s3_prefix_path := some "pre" },
       FsReply.created (Node.new 10 "b" "pre/a.txt").file_attr GENERATION 10)) ∧
    envAllOk.put_object_ok "b" "pre/a.txt" [] = true ∧
    rpcCalls (S3WriteOnlyFilesystem.release envAllOk
        { id_generator := ⟨11⟩,
          nodes := [(10, Node.new 10 "b" "pre/a.txt")],
          s3_bucket := "b",
          s3_prefix_path := some "pre" } 10).2.1 =
      [S3Call.putObject "b" "pre/a.txt" []] ∧
    (S3WriteOnlyFilesystem.release envAllOk
        { id_generator := ⟨11⟩,
          nodes := [(10, Node.new 10 "b" "pre/a.txt")],
          s3_bucket := "b",
          s3_prefix_path := some "pre" } 10).2.2 = FsReply.ok ∧
    STATIC_INODES.contains 10 = false ∧
    (S3WriteOnlyFilesystem.release envAllOk
        { id_generator := ⟨11⟩,
          nodes := [(10, { key := "k", file_attr := ⟨10, 0o220,
            FileType.RegularFile⟩, upload := Upload.Empty })],
          s3_bucket := "b",
          s3_prefix_path := none } 10).2.2 = FsReply.error EIO_ERRNO := by
  have hcreate : (S3WriteOnlyFilesystem.new ⟨"b", some "pre"⟩).create
      ROOT_DIRECTORY_INODE "a.txt" =
      ({ id_generator := ⟨11⟩,
         nodes := [(10, Node.new 10 "b" "pre/a.txt")],
         s3_bucket := "b",
         s3_prefix_path := some "pre" },
       FsReply.created (Node.new 10 "b" "pre/a.txt").file_attr GENERATION 10) := by
    decide
  have hmain := C5_zero_byte_put.1 envAllOk ⟨"b", some "pre"⟩ "a.txt" _ _
    hcreate rfl
  have hempty := C5_zero_byte_put.2.2.2.2 envAllOk
    { id_generator := ⟨11⟩,
      nodes := [(10, { key := "k", file_attr := ⟨10, 0o220,
        FileType.RegularFile⟩, upload := Upload.Empty })],
      s3_bucket := "b",
      s3_prefix_path := none } 10
    { key := "k", file_attr := ⟨10, 0o220, FileType.RegularFile⟩,
      upload := Upload.Empty } rfl rfl rfl
  exact ⟨hcreate, rfl, hmain.1, hmain.2, rfl, hempty⟩

theorem splitAtFirstColon_append {pre : List Char} (post : List Char)
    (h : ':' ∉ pre) :
    splitAtFirstColon (pre ++ ':' :: post) = some (pre, post) := by
  induction pre with
  | nil => simp [splitAtFirstColon]
  | cons c cs ih =>
    simp only [List.mem_cons, not_or] at h
    have hc : ¬ (c = ':') := fun hc => h.1 hc.symm
    simp [splitAtFirstColon, hc, ih h.2]

theorem splitAtFirstColon_none {l : List Char} (h : ':' ∉ l) :
    splitAtFirstColon l = none := by
  induction l with
  | nil => rfl
  | cons c cs ih =>
    simp only [List.mem_cons, not_or] at h
    have hc : ¬ (c = ':') := fun hc => h.1 hc.symm
    simp [splitAtFirstColon, hc, ih h.2]

theorem trimStartSlashes_all {l : List Char} (h : ∀ c ∈ l, c = '/') :
    trimStartSlashes l = [] := by
  induction l with
  | nil => rfl
  | cons c cs ih =>
    have hc : c = '/' := h c (by simp)
    simp [trimStartSlashes, hc, ih (fun d hd => h d (by simp [hd]))]

/-- C7: device-string parsing splits at the first `':'` (everything before it
is the bucket); the remainder is trimmed of leading and trailing `'/'`
characters verbatim (so interior `//` runs survive) and becomes the prefix,
or no prefix when the trimmed remainder is empty; a device without `':'` is
all bucket.  The spec's eight example rows evaluate accordingly. -/
theorem C7_device_string_parsing :
    (∀ (pre post : List Char), ':' ∉ pre →
      BucketAndPrefix.from_str (String.mk (pre ++ ':' :: post)) =
        { s3_bucket_name := String.mk pre,
          prefix_path :=
            if (trimEndSlashes (trimStartSlashes post)).isEmpty then none
            else some (String.mk (trimEndSlashes (trimStartSlashes post))) }) ∧
    (∀ device : String, ':' ∉ device.toList →
      BucketAndPrefix.from_str device =
        { s3_bucket_name := device, prefix_path := none }) ∧
    (∀ (pre post : List Char), ':' ∉ pre → (∀ c ∈ post, c = '/') →
      (BucketAndPrefix.from_str (String.mk (pre ++ ':' :: post))).prefix_path =
        none) ∧
    BucketAndPrefix.from_str "my-bucket" =
      { s3_bucket_name := "my-bucket", prefix_path := none } ∧
    BucketAndPrefix.from_str "my-bucket:" =
      { s3_bucket_name := "my-bucket", prefix_path := none } ∧
    BucketAndPrefix.from_str "my-bucket:/" =
      { s3_bucket_name := "my-bucket", prefix_path := none } ∧
    BucketAndPrefix.from_str "my-bucket://" =
      { s3_bucket_name := "my-bucket", prefix_path := none } ∧
    BucketAndPrefix.from_str "my-bucket:/single" =
      { s3_bucket_name := "my-bucket", prefix_path := some "single" } ∧
    BucketAndPrefix.from_str "my-bucket://single/" =
      { s3_bucket_name := "my-bucket", prefix_path := some "single" } ∧
    BucketAndPrefix.from_str "my-bucket:/multi/prefix" =
      { s3_bucket_name := "my-bucket", prefix_path := some "multi/prefix" } ∧
    BucketAndPrefix.from_str "my-bucket:/multi//prefix/" =
      { s3_bucket_name := "my-bucket", prefix_path := some "multi//prefix" } := by
  have hsplit : ∀ (pre post : List Char), ':' ∉ pre →
      BucketAndPrefix.from_str (String.mk (pre ++ ':' :: post)) =
        { s3_bucket_name := String.mk pre,
          prefix_path :=
            if (trimEndSlashes (trimStartSlashes post)).isEmpty then none
            else some (String.mk (trimEndSlashes (trimStartSlashes post))) } := by
    intro pre post h
    simp only [BucketAndPrefix.from_str, String.toList]
    rw [splitAtFirstColon_append post h]
  refine ⟨hsplit, ?_, ?_, by decide, by decide, by decide, by decide, by decide,
    by decide, by decide, by decide⟩
  · intro device h
    have h2 : splitAtFirstColon device.data = none := splitAtFirstColon_none h
    simp only [BucketAndPrefix.from_str, String.toList, h2]
  · intro pre post hpre hpost
    rw [hsplit pre post hpre]
    simp [trimEndSlashes, trimStartSlashes, trimStartSlashes_all hpost]

/-- C7 witness: the general split-and-trim clauses applied to concrete
devices. -/
theorem C7_device_string_parsing_witness :
    (':' ∉ (['b'] : List Char)) ∧
    BucketAndPrefix.from_str (String.mk (['b'] ++ ':' :: ['/', 'p', '/'])) =
      { s3_bucket_name := String.mk ['b'],
        prefix_path := some (String.mk ['p']) } ∧
    (':' ∉ "my-bucket".toList) ∧
    BucketAndPrefix.from_str "my-bucket" =
      { s3_bucket_name := "my-bucket", prefix_path := none } ∧
    (∀ c ∈ (['/', '/'] : List Char), c = '/') ∧
    (BucketAndPrefix.from_str (String.mk (['b'] ++ ':' :: ['/', '/']))).prefix_path =
      none := by
  refine ⟨by decide, ?_, by decide, ?_, by decide, ?_⟩
  · exact C7_device_string_parsing.1 ['b'] ['/', 'p', '/'] (by decide)
  · exact C7_device_string_parsing.2.1 "my-bucket" (by decide)
  · exact C7_device_string_parsing.2.2.1 ['b'] ['/', '/'] (by decide) (by decide)

/-- C8 counterexample: `create` succeeds for a file named exactly like the
English help file (no name check exists), yet the subsequent `lookup` of that
name under the root returns the help file's entry, not `ENOENT` — so the
claim's universal "returns ENOENT" fails at this name. -/
theorem C8_lookup_counterexample :
    ((S3WriteOnlyFilesystem.new ⟨"b", none⟩).create ROOT_DIRECTORY_INODE
        HELP_EN_NAME).2 =
      FsReply.created ⟨10, 0o220, FileType.RegularFile⟩ GENERATION 10 ∧
    (((S3WriteOnlyFilesystem.new ⟨"b", none⟩).create ROOT_DIRECTORY_INODE
        HELP_EN_NAME).1).lookup ROOT_DIRECTORY_INODE HELP_EN_NAME =
      FsReply.entry HELP_EN_FILEATTR ∧
    FsReply.entry HELP_EN_FILEATTR ≠ FsReply.error ENOENT := by
  exact ⟨by decide, by decide, by decide⟩

/-- C8 amended: after any successful `create` under the root, looking up the
created name returns `ENOENT` provided the name is not one of the two fixed
help-file names; `lookup` never consults the node table, so a user-created
file is never returned (a name colliding with a help file resolves to the
help file's frozen attributes instead). -/
theorem C8_write_only_lookup {fs fs1 : S3WriteOnlyFilesystem} {name : String}
    {rep : FsReply}
    (hcreate : fs.create ROOT_DIRECTORY_INODE name = (fs1, rep))
    (hen : name ≠ HELP_EN_NAME) (hde : name ≠ HELP_DE_NAME) :
    fs1.lookup ROOT_DIRECTORY_INODE name = FsReply.error ENOENT := by
  simp [S3WriteOnlyFilesystem.lookup, hen, hde]

/-- C8 witness: creating `hello.txt` and looking it up yields `ENOENT`. -/
theorem C8_write_only_lookup_witness :
    (S3WriteOnlyFilesystem.new ⟨"b", none⟩).create ROOT_DIRECTORY_INODE
        "hello.txt" =
      ({ id_generator := ⟨11⟩,
         nodes := [(10, Node.new 10 "b" "hello.txt")],
         s3_bucket := "b",
         s3_prefix_path := none },
       FsReply.created (Node.new 10 "b" "hello.txt").file_attr GENERATION 10) ∧
    ("hello.txt" ≠ HELP_EN_NAME) ∧
    ("hello.txt" ≠ HELP_DE_NAME) ∧
    S3WriteOnlyFilesystem.lookup
      { id_generator := ⟨11⟩,
        nodes := [(10, Node.new 10 "b" "hello.txt")],
        s3_bucket := "b",
        s3_prefix_path := none } ROOT_DIRECTORY_INODE "hello.txt" =
      FsReply.error ENOENT := by
  have hcreate : (S3WriteOnlyFilesystem.new ⟨"b", none⟩).create
      ROOT_DIRECTORY_INODE "hello.txt" =
      ({ id_generator := ⟨11⟩,
         nodes := [(10, Node.new 10 "b" "hello.txt")],
         s3_bucket := "b",
         s3_prefix_path := none },
       FsReply.created (Node.new 10 "b" "hello.txt").file_attr GENERATION 10) := by
    decide
  exact ⟨hcreate, by decide, by decide,
    C8_write_only_lookup hcreate (by decide) (by decide)⟩

theorem allRpcsLocked_map_rpc {d : Nat} (hd : 0 < d) (cs : List S3Call)
    (rest : List FsEvent) (h : allRpcsLocked d rest = true) :
    allRpcsLocked d (cs.map FsEvent.rpc ++ rest) = true := by
  induction cs with
  | nil => simpa using h
  | cons c cs ih => simp [allRpcsLocked, hd, ih]

theorem nodeWrite_ok {env : S3Env} {n : Node} {data : List Nat}
    {t : List S3Call} {u2 : Upload}
    (h : Upload.write env n.upload data = (t, Except.ok u2)) :
    Node.write env n data = ({ n with upload := u2 }, t, Except.ok ()) := by
  simp only [Node.write, h]

theorem nodeWrite_error {env : S3Env} {n : Node} {data : List Nat}
    {t : List S3Call} {e : String}
    (h : Upload.write env n.upload data = (t, Except.error e)) :
    Node.write env n data =
      ({ n with upload := Upload.default }, t, Except.error e) := by
  simp only [Node.write, h]

theorem fsWrite_found {env : S3Env} {fs : S3WriteOnlyFilesystem} {ino : Nat}
    {node : Node} (hlook : mapLookup fs.nodes ino = some node)
    (data : List Nat) :
    S3WriteOnlyFilesystem.write env fs ino data =
      ({ fs with nodes := mapInsert fs.nodes ino (Node.write env node data).1 },
       FsEvent.lockAcquire ::
         ((Node.write env node data).2.1.map FsEvent.rpc ++
          [FsEvent.lockRelease]),
       match (Node.write env node data).2.2 with
       | Except.ok _ => FsReply.written data.length
       | Except.error _ => FsReply.error EIO_ERRNO) := by
  simp only [S3WriteOnlyFilesystem.write, hlook]
  cases h2 : (Node.write env node data).2.2 with
  | ok u => simp [h2]
  | error e => simp [h2]

/-- C9 counterexample: a 5 MiB write to a fresh node issues its
`create_multipart_upload` and `upload_part` RPCs strictly between the
node-table lock acquisition and its release — the table mutex is held while
object-store RPCs are in flight, so the claim that it never is fails. -/
theorem C9_lock_held_counterexample :
    rpcWhileLocked 0
      (S3WriteOnlyFilesystem.write envAllOk fsOneNode 10 thresholdData).2.1 =
      true := by
  have hlen : MULTIPART_MINIMUM_PART_SIZE ≤
      (([] : List Nat) ++ thresholdData).length := by
    simp [thresholdData]
  have hw := @write_regular_promote envAllOk "b" "k" "upload-id" "etag" []
    thresholdData hlen rfl rfl
  rw [List.nil_append] at hw
  have hw2 : Upload.write envAllOk (Node.new 10 "b" "k").upload thresholdData =
      ([S3Call.createMultipartUpload "b" "k",
        S3Call.uploadPart "b" "k" "upload-id" 1 thresholdData],
       Except.ok (Upload.Multipart "b" "k" "upload-id" ⟨2⟩ []
         [⟨some "etag", some 1⟩])) := hw
  have hlook : mapLookup fsOneNode.nodes 10 = some (Node.new 10 "b" "k") := rfl
  rw [fsWrite_found hlook thresholdData, nodeWrite_ok hw2]
  rfl

/-- C9 amended: in the `write` and `release` dispatcher operations the
node-table mutex guard spans the whole operation — every object-store RPC
these operations issue happens while the table lock is held (the guard bound
by `self.nodes.lock()` is dropped only at the end of the match arm, after
`Node::write` / `Node::finish` returns). -/
theorem C9_rpcs_under_table_lock (env : S3Env) (fs : S3WriteOnlyFilesystem)
    (ino : Nat) (data : List Nat) :
    allRpcsLocked 0 (S3WriteOnlyFilesystem.write env fs ino data).2.1 = true ∧
    allRpcsLocked 0 (S3WriteOnlyFilesystem.release env fs ino).2.1 = true := by
  constructor
  · unfold S3WriteOnlyFilesystem.write
    cases hlook : mapLookup fs.nodes ino with
    | none => simp [allRpcsLocked]
    | some node =>
      simp only
      cases hr : (Node.write env node data).2.2 with
      | ok u =>
        simp only [hr]
        exact allRpcsLocked_map_rpc Nat.one_pos _ _ rfl
      | error e =>
        simp only [hr]
        exact allRpcsLocked_map_rpc Nat.one_pos _ _ rfl
  · unfold S3WriteOnlyFilesystem.release
    by_cases hmem : ino ∈ STATIC_INODES
    · rw [if_pos hmem]
      rfl
    · rw [if_neg hmem]
      cases hlook : mapLookup fs.nodes ino with
      | none => simp [allRpcsLocked]
      | some node =>
        simp only
        cases hr : (Node.finish env node).2.2 with
        | ok u =>
          simp only [hr]
          exact allRpcsLocked_map_rpc Nat.one_pos _ _ rfl
        | error e =>
          simp only [hr]
          exact allRpcsLocked_map_rpc Nat.one_pos _ _ rfl

theorem mapLookup_mapInsert (m : List (Nat × Node)) (k : Nat) (v : Node) :
    mapLookup (mapInsert m k v) k = some v := by
  simp [mapInsert, mapLookup]

theorem fsRelease_found {env : S3Env} {fs : S3WriteOnlyFilesystem} {ino : Nat}
    {node : Node} (hmem : ino ∉ STATIC_INODES)
    (hlook : mapLookup fs.nodes ino = some node) :
    S3WriteOnlyFilesystem.release env fs ino =
      ({ fs with nodes := mapRemove fs.nodes ino },
       FsEvent.lockAcquire ::
         ((Node.finish env node).2.1.map FsEvent.rpc ++
          [FsEvent.lockRelease]),
       match (Node.finish env node).2.2 with
       | Except.ok _ => FsReply.ok
       | Except.error _ => FsReply.error EIO_ERRNO) := by
  simp only [S3WriteOnlyFilesystem.release, if_neg hmem, hlook]
  cases h2 : (Node.finish env node).2.2 with
  | ok u => simp [h2]
  | error e => simp [h2]

/-- C10: when `Upload::write` fails inside `Node::write`, the early return
skips the `mem::replace`, so the node keeps the `Empty` placeholder left by
`mem::take`: the dispatcher `write` replies `EIO` and the node stays in the
table with an `Empty` upload; every subsequent `release` of that inode then
fails with `EIO` (finish on `Empty` is the invalid-state error), and teardown
`destroy` of that node issues no RPC at all — in particular no
`abort_multipart_upload`, even when a multipart upload had already been
created remotely. -/
theorem C10_write_error_leaves_empty {env : S3Env}
    {fs : S3WriteOnlyFilesystem} {ino : Nat} {node : Node} {data : List Nat}
    {t : List S3Call} {e : String}
    (hlook : mapLookup fs.nodes ino = some node)
    (hw : Upload.write env node.upload data = (t, Except.error e)) :
    (S3WriteOnlyFilesystem.write env fs ino data).2.2 =
      FsReply.error EIO_ERRNO ∧
    mapLookup (S3WriteOnlyFilesystem.write env fs ino data).1.nodes ino =
      some { node with upload := Upload.Empty } ∧
    (ino ∉ STATIC_INODES →
      (S3WriteOnlyFilesystem.release env
          (S3WriteOnlyFilesystem.write env fs ino data).1 ino).2.2 =
        FsReply.error EIO_ERRNO) ∧
    (Node.destroy env { node with upload := Upload.Empty }).2.1 = [] := by
  have hnw := nodeWrite_error hw
  rw [fsWrite_found hlook data, hnw]
  have hlook2 : mapLookup (mapInsert fs.nodes ino
      { node with upload := Upload.default }) ino =
      some { node with upload := Upload.Empty } :=
    mapLookup_mapInsert fs.nodes ino _
  refine ⟨rfl, hlook2, ?_, rfl⟩
  intro hmem
  rw [fsRelease_found hmem hlook2]
  rfl

/-- C10 witness: with an environment in which `upload_part` fails, a 5 MiB
write on a fresh node errors after `create_multipart_upload` succeeded,
leaving the node's upload `Empty`; the subsequent release replies `EIO` and
destroying the node issues no abort. -/
theorem C10_write_error_leaves_empty_witness :
    mapLookup fsOneNode.nodes 10 = some (Node.new 10 "b" "k") ∧
    Upload.write envPartFails (Node.new 10 "b" "k").upload thresholdData =
      ([S3Call.createMultipartUpload "b" "k",
        S3Call.uploadPart "b" "k" "upload-id" 1 thresholdData],
       Except.error "uploaded multipart did not return e-tag") ∧
    (S3WriteOnlyFilesystem.write envPartFails fsOneNode 10 thresholdData).2.2 =
      FsReply.error EIO_ERRNO ∧
    mapLookup (S3WriteOnlyFilesystem.write envPartFails fsOneNode 10
        thresholdData).1.nodes 10 =
      some { Node.new 10 "b" "k" with upload := Upload.Empty } ∧
    (S3WriteOnlyFilesystem.release envPartFails
        (S3WriteOnlyFilesystem.write envPartFails fsOneNode 10
          thresholdData).1 10).2.2 = FsReply.error EIO_ERRNO ∧
    (Node.destroy envPartFails
        { Node.new 10 "b" "k" with upload := Upload.Empty }).2.1 = [] := by
  have hlen : MULTIPART_MINIMUM_PART_SIZE ≤
      (([] : List Nat) ++ thresholdData).length := by
    simp [thresholdData]
  have hw0 := @write_regular_promote_part_fails envPartFails "b" "k"
    "upload-id" [] thresholdData hlen rfl rfl
  rw [List.nil_append] at hw0
  have hw : Upload.write envPartFails (Node.new 10 "b" "k").upload
      thresholdData =
      ([S3Call.createMultipartUpload "b" "k",
        S3Call.uploadPart "b" "k" "upload-id" 1 thresholdData],
       Except.error "uploaded multipart did not return e-tag") := hw0
  have hlook : mapLookup fsOneNode.nodes 10 = some (Node.new 10 "b" "k") := rfl
  have hmain := C10_write_error_leaves_empty hlook hw
  exact ⟨hlook, hw, hmain.1, hmain.2.1, hmain.2.2.1 (by decide), hmain.2.2.2⟩
